import Mathlib

/-!
Verification development for the nlp.tasks repository: a shallow embedding of
the task/project datastore (models.py), the operation executor and rule-based
classifier (nlp_processor.py), the generation/import sub-flow
(chat_processor.py), and the per-request session handling (main.py).

Modelling conventions:
* SQLAlchemy rows become Lean structures; `datetime` values are abstracted as
  `Nat` timestamps (no claim depends on concrete dates).
* A SQLAlchemy async session is a pair of stores: the `committed` database
  state and the `current` in-transaction state.  `flush` applies staged
  writes to `current` (checking the table CHECK constraints, which SQLite
  enforces at insert time); `commit` copies `current` into `committed`;
  `rollback` restores `current` from `committed`.
* Foreign keys are NOT checked: the runtime engine (async_db.py) opens
  `sqlite+aiosqlite:///tasks.db` without `PRAGMA foreign_keys = ON`, and the
  pragma is per-connection in SQLite, so the app runs with FK enforcement off.
* Python `ValueError`/`KeyError` raise sites become constructors of `Err`;
  each constructor is annotated with the exact source message.
* Tags and the task↔tag association are omitted: no operation touched by a
  claim reads or writes them.
-/

namespace NlpTasks

/-! ## Data model (models.py) -/

/-- Row of the `users` table (models.py, `class User`). -/
structure UserRec where
  user_id : Nat
  username : String
  email : String
deriving DecidableEq, Repr

/-- Row of the `projects` table (models.py, `class Project`).
`description` is nullable (`Column(String)` with no `nullable=False`). -/
structure ProjectRec where
  project_id : Nat
  name : String
  description : Option String
deriving DecidableEq, Repr

/-- Row of the `tasks` table (models.py, `class Task`). `due_date` is an
abstract timestamp; `created_at` is not modelled (no claim reads it). -/
structure TaskRec where
  task_id : Nat
  title : String
  description : Option String
  status : String
  priority : String
  due_date : Option Nat
  project_id : Option Nat
  assigned_to : Option Nat
  created_by : Nat
deriving DecidableEq, Repr

/-- models.py: `CheckConstraint(status.in_(['pending', 'in_progress', 'completed']))`. -/
def validStatus (s : String) : Bool :=
  s == "pending" || s == "in_progress" || s == "completed"

/-- models.py: `CheckConstraint(priority.in_(['low', 'medium', 'high']))`. -/
def validPriority (p : String) : Bool :=
  p == "low" || p == "medium" || p == "high"

/-- The CHECK constraints a `tasks` row must satisfy for an INSERT to be
accepted by SQLite (models.py `__table_args__`). -/
def taskRowOk (t : TaskRec) : Bool :=
  validStatus t.status && validPriority t.priority

/-- The persisted database state: the three tables the claims touch, plus the
autoincrement counters for the two surrogate keys the operations allocate. -/
structure Store where
  users : List UserRec := []
  projects : List ProjectRec := []
  tasks : List TaskRec := []
  nextProjectId : Nat := 1
  nextTaskId : Nat := 1
deriving DecidableEq, Repr

/-- A SQLAlchemy session: committed database state plus the in-transaction
(flushed but uncommitted) state. -/
structure Session where
  committed : Store
  current : Store
deriving DecidableEq, Repr

/-- A fresh session opened on database state `db` (main.py line 53:
`session = AsyncSessionLocal()`). -/
def Session.fresh (db : Store) : Session := ⟨db, db⟩

/-- `await session.commit()`: the in-transaction state becomes durable. -/
def Session.commitTxn (s : Session) : Session := ⟨s.current, s.current⟩

/-- `await session.rollback()`: the in-transaction state is discarded. -/
def Session.rollbackTxn (s : Session) : Session := ⟨s.committed, s.committed⟩

/-! ## Errors

Each constructor corresponds to one Python raise site; the source message is
given in the comment.  Distinct constructors model distinct messages. -/

inductive Err where
  /-- `KeyError` on `params[k]`, re-raised as `Missing required parameter: 'k'`. -/
  | missingParam (key : String)
  /-- `scalar_one_or_none()` raising `MultipleResultsFound`. -/
  | multipleResults
  /-- `IntegrityError`: a CHECK constraint rejected an INSERT at flush/commit. -/
  | checkFailed
  /-- nlp_processor.py line 745: `Task ID is required for delete operation`. -/
  | taskIdRequired
  /-- nlp_processor.py line 750: `Task with ID {task_id} not found`. -/
  | taskNotFound (tid : Nat)
  /-- Python `int(s)` raising `ValueError` on an unparsable literal. -/
  | invalidInt (tok : String)
  /-- Python `IndexError` from indexing an empty split result. -/
  | indexError
  /-- `_parse_date` raising `ValueError` (`Could not parse date: ...`),
  re-raised as `Error parsing date '...'`.  Raised in Python, before any
  SQL statement, so the session's transaction stays active. -/
  | dateUnparsable
deriving DecidableEq, Repr

/-- SQLAlchemy `Result.scalar_one_or_none()`: `none` for zero rows, the row
for exactly one, and a `MultipleResultsFound` error for two or more. -/
def scalarOneOrNone {α : Type} (xs : List α) : Except Err (Option α) :=
  match xs with
  | [] => .ok none
  | [x] => .ok (some x)
  | _ :: _ :: _ => .error .multipleResults

/-- Decidable equality of results, so that concrete runs can be settled by
evaluation. -/
instance {ε α : Type} [DecidableEq ε] [DecidableEq α] :
    DecidableEq (Except ε α) := fun x y =>
  match x, y with
  | .error e, .error f =>
    if h : e = f then .isTrue (congrArg Except.error h)
    else .isFalse (fun hc => h (Except.error.inj hc))
  | .ok a, .ok b =>
    if h : a = b then .isTrue (congrArg Except.ok h)
    else .isFalse (fun hc => h (Except.ok.inj hc))
  | .error _, .ok _ => .isFalse (fun hc => Except.noConfusion hc)
  | .ok _, .error _ => .isFalse (fun hc => Except.noConfusion hc)

/-! ## Schema listing (nlp_processor.py `_list_tables`, database_utils.py) -/

/-- One column descriptor as produced by schema listing:
`{"name": ..., "type": ..., "nullable": ...}`. -/
structure ColumnInfo where
  name : String
  type : String
  nullable : Bool
deriving DecidableEq, Repr

/-- One table descriptor: `{"name": ..., "columns": [...]}`. -/
structure TableInfo where
  name : String
  columns : List ColumnInfo
deriving DecidableEq, Repr

/-- The literal list returned by `NLPProcessor._list_tables`
(nlp_processor.py lines 550–599), transcribed verbatim. -/
def hardcodedTables : List TableInfo :=
  [ { name := "tasks",
      columns :=
        [ ⟨"task_id", "INTEGER", false⟩,
          ⟨"title", "VARCHAR", false⟩,
          ⟨"description", "TEXT", true⟩,
          ⟨"status", "VARCHAR", false⟩,
          ⟨"priority", "VARCHAR", false⟩,
          ⟨"due_date", "DATETIME", true⟩,
          ⟨"created_at", "DATETIME", false⟩,
          ⟨"project_id", "INTEGER", true⟩,
          ⟨"assigned_to", "INTEGER", true⟩,
          ⟨"created_by", "INTEGER", false⟩ ] },
    { name := "projects",
      columns :=
        [ ⟨"project_id", "INTEGER", false⟩,
          ⟨"name", "VARCHAR", false⟩,
          ⟨"description", "TEXT", true⟩,
          ⟨"created_at", "DATETIME", false⟩ ] },
    { name := "users",
      columns :=
        [ ⟨"user_id", "INTEGER", false⟩,
          ⟨"username", "VARCHAR", false⟩,
          ⟨"email", "VARCHAR", false⟩,
          ⟨"created_at", "DATETIME", false⟩ ] },
    { name := "tags",
      columns :=
        [ ⟨"tag_id", "INTEGER", false⟩,
          ⟨"name", "VARCHAR", false⟩,
          ⟨"created_by", "INTEGER", false⟩ ] },
    { name := "task_tags",
      columns :=
        [ ⟨"task_id", "INTEGER", false⟩,
          ⟨"tag_id", "INTEGER", false⟩ ] } ]

/-- `NLPProcessor._list_tables` (nlp_processor.py lines 540–605): returns the
hardcoded descriptor list above, ignoring the session/store entirely. -/
def list_tables_op (_s : Store) : List TableInfo := hardcodedTables

/-- The schema actually persisted by `Base.metadata.create_all` (models.py,
run at startup in main.py): table names in SQLite inspector order
(alphabetical, as `inspector.get_table_names()` returns them), columns in
declaration order, SQLAlchemy types rendered the way
`str(column["type"])` renders them for SQLite (`String` → `VARCHAR`,
`Integer` → `INTEGER`, `DateTime` → `DATETIME`).  This is what
`database_utils.list_tables` (imported by nlp_processor.py but never called)
would report. -/
def actualSchemaTables : List TableInfo :=
  [ { name := "projects",
      columns :=
        [ ⟨"project_id", "INTEGER", false⟩,
          ⟨"name", "VARCHAR", false⟩,
          ⟨"description", "VARCHAR", true⟩,
          ⟨"created_at", "DATETIME", false⟩ ] },
    { name := "tags",
      columns :=
        [ ⟨"tag_id", "INTEGER", false⟩,
          ⟨"name", "VARCHAR", false⟩,
          ⟨"created_by", "INTEGER", false⟩ ] },
    { name := "task_tags",
      columns :=
        [ ⟨"task_id", "INTEGER", true⟩,
          ⟨"tag_id", "INTEGER", true⟩ ] },
    { name := "tasks",
      columns :=
        [ ⟨"task_id", "INTEGER", false⟩,
          ⟨"title", "VARCHAR", false⟩,
          ⟨"description", "VARCHAR", true⟩,
          ⟨"status", "VARCHAR", false⟩,
          ⟨"priority", "VARCHAR", false⟩,
          ⟨"due_date", "DATETIME", true⟩,
          ⟨"created_at", "DATETIME", false⟩,
          ⟨"project_id", "INTEGER", true⟩,
          ⟨"assigned_to", "INTEGER", true⟩,
          ⟨"created_by", "INTEGER", false⟩ ] },
    { name := "users",
      columns :=
        [ ⟨"user_id", "INTEGER", false⟩,
          ⟨"username", "VARCHAR", false⟩,
          ⟨"email", "VARCHAR", false⟩,
          ⟨"created_at", "DATETIME", false⟩ ] } ]

/-! ## Python string helpers

Small executable counterparts of the Python string operations the processor
uses, written by structural recursion over the character list so that every
definition evaluates inside the kernel.  `pySplitOn` (for a nonempty separator) splits
on every non-overlapping occurrence exactly as Python `str.split(sep)`). -/

/-- Python `s.lower()` (ASCII case folding; every pattern the classifier
compares against is ASCII). -/
def pyLower (s : String) : String := ⟨s.data.map Char.toLower⟩

/-- Python `s.strip()`: drop leading and trailing whitespace. -/
def pyStrip (s : String) : String :=
  ⟨((s.data.dropWhile Char.isWhitespace).reverse.dropWhile
      Char.isWhitespace).reverse⟩

/-- Python `s.startswith(p)`. -/
def pyStartsWith (s p : String) : Bool := p.data.isPrefixOf s.data

/-- Worker for `pySplitOn`: scan left to right, cutting at each
non-overlapping occurrence of the (nonempty) separator.  The fuel starts at
the input length; each step consumes at least one character, so the
fuel-exhausted case is unreachable. -/
def pySplitAux (sep : List Char) : Nat → List Char → List Char → List (List Char)
  | _, [], acc => [acc.reverse]
  | 0, rest, acc => [acc.reverse ++ rest]
  | fuel + 1, c :: cs, acc =>
    if sep.isPrefixOf (c :: cs) then
      acc.reverse :: pySplitAux sep fuel (List.drop (sep.length - 1) cs) []
    else
      pySplitAux sep fuel cs (c :: acc)

/-- Python `s.split(sep)` for a nonempty separator: split on every
non-overlapping occurrence, keeping empty pieces. -/
def pySplitOn (s sep : String) : List String :=
  (pySplitAux sep.data s.data.length s.data []).map (fun cs => ⟨cs⟩)

/-- Python `sub in s` (substring containment): `s.split(sub)` has more than
one piece exactly when `sub` occurs in `s`. -/
def pyContains (s sub : String) : Bool := (pySplitOn s sub).length != 1

/-- Worker for `pySplitWs`. -/
def splitWsAux : List Char → List Char → List (List Char)
  | [], acc => [acc.reverse]
  | c :: cs, acc =>
    if c.isWhitespace then acc.reverse :: splitWsAux cs []
    else splitWsAux cs (c :: acc)

/-- Python `s.split()`: split on whitespace runs, dropping empty pieces. -/
def pySplitWs (s : String) : List String :=
  ((splitWsAux s.data []).map (fun cs => (⟨cs⟩ : String))).filter (· != "")

/-- Digit-string to number, `none` when empty or not all digits. -/
def digitsToNat? (cs : List Char) : Option Nat :=
  if cs.isEmpty then none
  else if cs.all Char.isDigit then
    some (cs.foldl (fun a c => a * 10 + (c.toNat - 48)) 0)
  else none

/-- Python `int(s)`: strip surrounding whitespace, optional sign, decimal
digits; raises `ValueError` (here `none`) otherwise.  (Underscore digit
grouping is not modelled; no command in the claims uses it.) -/
def pyInt? (s : String) : Option Int :=
  match (pyStrip s).data with
  | '-' :: rest => (digitsToNat? rest).map (fun n => -(n : Int))
  | '+' :: rest => (digitsToNat? rest).map (fun n => (n : Int))
  | cs => (digitsToNat? cs).map (fun n => (n : Int))

/-- Python `s.strip("'\"")`: remove leading and trailing single/double
quotes (used on the project name suffix of an import command). -/
def stripQuotes (s : String) : String :=
  let isQ : Char → Bool := fun c => c == '\x27' || c == '"'
  ⟨(s.data.dropWhile isQ).reverse.dropWhile isQ |>.reverse⟩

/-! ## Rule-based classifier (nlp_processor.py `process_query`)

`process_query` lowercases and strips the query (line 34) and then runs a
fixed chain of pattern checks, each of whose branch bodies ends in `return`
(every path of every branch returns a result, including the `except`
handlers, so a matched branch never falls through to a later one).  The LLM
fallback call (lines 299 onward) is reached only when no check matched. -/

/-- The eight command families of the dispatch chain, in source order. -/
inductive CommandFamily where
  | bulkUpdate
  | schemaList
  | deleteAllProjects
  | deleteSpecificProjects
  | deleteAllTasks
  | taskGeneration
  | taskImport
  | llmFallback
deriving DecidableEq, Repr

/-- Line 37: the bulk-update guard. -/
def isBulkUpdate (q : String) : Bool :=
  pyStartsWith q "for tasks" || pyStartsWith q "set all tasks" ||
    pyStartsWith q "assign all tasks"

/-- Line 163: the schema-listing guard (exact phrases). -/
def isSchemaList (q : String) : Bool :=
  q == "show tables" || q == "show all tables" || q == "show schema"

/-- Line 179: the delete-all-projects guard (exact phrases). -/
def isDeleteAllProjects (q : String) : Bool :=
  q == "delete all projects" || q == "delete all project"

/-- Line 195: the delete-specific-projects guard. -/
def isDeleteSpecificProjects (q : String) : Bool :=
  pyStartsWith q "delete project"

/-- Line 220: the delete-all-tasks guard (exact phrase). -/
def isDeleteAllTasks (q : String) : Bool :=
  q == "delete all tasks"

/-- Lines 236–240: the task-generation request markers. -/
def generationPatterns : List String :=
  ["how to", "what are the steps", "what do i need to do", "what are the",
   "list the tasks", "create a plan", "break down", "what are",
   "show me how to", "guide me through", "walk me through"]

/-- Line 236: the task-generation guard (any marker occurs as substring). -/
def isTaskGeneration (q : String) : Bool :=
  generationPatterns.any (fun p => pyContains q p)

/-- Lines 259–264: the task-import markers. -/
def importPatterns : List String :=
  ["add these tasks", "import those tasks", "save these tasks",
   "create these tasks", "add all of these", "import all tasks",
   "save all tasks", "add these to tasks", "add all to tasks",
   "import all", "save all", "add all"]

/-- Line 265: the task-import guard (substring occurrence, or — redundantly —
exact membership in the marker list). -/
def isTaskImport (q : String) : Bool :=
  importPatterns.any (fun p => pyContains q p) || importPatterns.contains q

/-- The dispatch chain of `process_query` (nlp_processor.py lines 37–299) on
the lowered, stripped query: the family whose branch body runs; all earlier
guards were tested and failed.  `llmFallback` means the GPT-4 call at line
395 is reached. -/
def classify (q : String) : CommandFamily :=
  if isBulkUpdate q then .bulkUpdate
  else if isSchemaList q then .schemaList
  else if isDeleteAllProjects q then .deleteAllProjects
  else if isDeleteSpecificProjects q then .deleteSpecificProjects
  else if isDeleteAllTasks q then .deleteAllTasks
  else if isTaskGeneration q then .taskGeneration
  else if isTaskImport q then .taskImport
  else .llmFallback

/-- `process_query`'s normalisation (line 34: `query.lower().strip()`)
followed by the dispatch chain. -/
def dispatch (query : String) : CommandFamily :=
  classify (pyStrip (pyLower query))

/-- Specification-side view of §4.1: the rule families paired with their
guards, in the documented priority order (the LLM fallback is not a rule). -/
def ruleFamilies : List (CommandFamily × (String → Bool)) :=
  [ (.bulkUpdate, isBulkUpdate),
    (.schemaList, isSchemaList),
    (.deleteAllProjects, isDeleteAllProjects),
    (.deleteSpecificProjects, isDeleteSpecificProjects),
    (.deleteAllTasks, isDeleteAllTasks),
    (.taskGeneration, isTaskGeneration),
    (.taskImport, isTaskImport) ]

/-- Spec-side "first matching family wins, no backtracking": the first rule
family whose guard accepts `q`, defaulting to the LLM fallback. -/
def firstMatchingFamily (q : String) : CommandFamily :=
  match ruleFamilies.find? (fun fp => fp.2 q) with
  | some fp => fp.1
  | none => .llmFallback

/-- `q` matches at least one rule-based pattern. -/
def matchesSomeRule (q : String) : Bool :=
  ruleFamilies.any (fun fp => fp.2 q)

/-! ## Bulk-update task-id extraction (nlp_processor.py lines 46–64)

The bulk branch first builds the list of target task ids from the query.
`Task.task_id.between(min_id, max_id)` is SQL `BETWEEN`, which is inclusive
at both ends.  Extraction failures surface as the exceptions the source
raises (`ValueError` from `int`, `IndexError` from indexing a split). -/

def extractTaskIds (q : String) (taskIds : List Nat) : Except Err (List Nat) :=
  if pyStartsWith q "set all tasks" || pyStartsWith q "assign all tasks" then
    -- lines 47–50: select every task id
    .ok taskIds
  else if pyContains q "greater than" then
    -- lines 51–54: min_id = int(query_lower.split("greater than")[1].split()[0])
    match (pySplitOn q "greater than")[1]? with
    | none => .error .indexError
    | some rest =>
      match (pySplitWs rest)[0]? with
      | none => .error .indexError
      | some tok =>
        match pyInt? tok with
        | none => .error (.invalidInt tok)
        | some n => .ok (taskIds.filter (fun i => n < (i : Int)))
  else if pyContains q "less than" then
    -- lines 55–58
    match (pySplitOn q "less than")[1]? with
    | none => .error .indexError
    | some rest =>
      match (pySplitWs rest)[0]? with
      | none => .error .indexError
      | some tok =>
        match pyInt? tok with
        | none => .error (.invalidInt tok)
        | some n => .ok (taskIds.filter (fun i => (i : Int) < n))
  else if pyContains q "between" then
    -- lines 59–64: parts = query_lower.split("between")[1].split("and")
    match (pySplitOn q "between")[1]? with
    | none => .error .indexError
    | some rest =>
      let parts := pySplitOn rest "and"
      match parts[0]? with
      | none => .error .indexError
      | some p0 =>
        match pyInt? (pyStrip p0) with
        | none => .error (.invalidInt (pyStrip p0))
        | some lo =>
          match parts[1]? with
          | none => .error .indexError
          | some p1 =>
            match (pySplitWs p1)[0]? with
            | none => .error .indexError
            | some tok =>
              match pyInt? tok with
              | none => .error (.invalidInt tok)
              | some hi =>
                -- Task.task_id.between(min_id, max_id): inclusive BETWEEN
                .ok (taskIds.filter (fun i => lo ≤ (i : Int) && (i : Int) ≤ hi))
  else
    -- no selection keyword: task_ids stays [] (the branch then fails
    -- at line 66 with "No tasks found matching the specified criteria")
    .ok []

/-! ## Generation/import data (chat_processor.py)

The conversation history holds role-tagged messages whose content is raw
text.  The only writer of assistant-role content is `generate_tasks`, which
stores the verbatim LLM reply; the import branch re-parses that text with
`json.loads`.  Content is modelled as either a JSON object (with its
optional `"tasks"` list field, each element carrying the three fields the
flow reads, `Option` marking a field absent from the JSON) or unparsable
text. -/

/-- One element of an LLM-generated `"tasks"` array.  `estimated_duration`
is never read by validation or import and is omitted. -/
structure GenTaskJson where
  title : Option String := none
  description : Option String := none
  priority : Option String := none
deriving DecidableEq, Repr

inductive Role where
  | user
  | assistant
deriving DecidableEq, Repr

/-- Raw message content: a JSON object (with the `"tasks"` field, when it is
present and a list) or non-JSON text (`json.loads` fails). -/
inductive Content where
  | jsonObj (tasksField : Option (List GenTaskJson))
  | text (s : String)
deriving DecidableEq, Repr

structure Msg where
  role : Role
  content : Content
deriving DecidableEq, Repr

/-! ## Results and responses -/

/-- The `data` payload of a result, covering the shapes the embedded
operations produce. -/
inductive RData where
  | tables (ts : List TableInfo)
  | taskCreated (t : TaskRec) (project_name : Option String)
  | taskUpdated (t : TaskRec)
  | deletedAllTasks (n : Nat)
  | deletedTaskId (tid : Nat)
  | genTasks (ts : List GenTaskJson)
  | importedTasks (ts : List TaskRec) (project : Option (String × Nat))
deriving DecidableEq, Repr

/-- The uniform `{success, response, data}` result shape. -/
structure Response where
  success : Bool
  response : String
  data : Option RData
deriving DecidableEq, Repr

/-! ## Operation executor (nlp_processor.py) -/

/-- The `project_id` parameter of `create_task` can arrive as a number or as
text (line 645: `isinstance(project_id, str)`). -/
inductive ProjectParam where
  | byId (n : Nat)
  | byName (s : String)
deriving DecidableEq, Repr

/-- Parameter dictionary of `_create_task`; `none` models an absent key. -/
structure CreateTaskParams where
  title : Option String := none
  description : Option String := none
  status : Option String := none
  priority : Option String := none
  due_date : Option Nat := none
  project_id : Option ProjectParam := none
  created_by : Option Nat := none
deriving DecidableEq, Repr

/-- Parameter dictionary of `_delete_task`. -/
structure DeleteTaskParams where
  delete_all : Bool := false
  task_id : Option Nat := none
deriving DecidableEq, Repr

/-- `session.add(Project(...)); await session.flush()`: append the row with
the next surrogate key (projects have no CHECK constraints and `name` is a
non-null string by construction, so the flush cannot fail). -/
def insertProject (s : Store) (nm descr : String) : Store × ProjectRec :=
  let pr : ProjectRec := ⟨s.nextProjectId, nm, some descr⟩
  ({ s with projects := s.projects ++ [pr], nextProjectId := s.nextProjectId + 1 },
   pr)

/-- `_create_task` lines 642–658: a textual `project_id` is treated as a
project name — looked up with `scalar_one_or_none`, created when absent.
Returns the possibly-extended store, the resolved numeric id, and the
project name when it came from the parameter. -/
def resolveProjectParam (s : Store) (title : String) :
    Option ProjectParam → Except Err (Store × Option Nat × Option String)
  | some (.byName nm) =>
    match scalarOneOrNone (s.projects.filter (fun pr => pr.name == nm)) with
    | .error e => .error e
    | .ok (some pr) => .ok (s, some pr.project_id, some nm)
    | .ok none =>
      let (s', pr) := insertProject s nm ("Project created for task: " ++ title)
      .ok (s', some pr.project_id, some nm)
  | some (.byId n) => .ok (s, some n, none)
  | none => .ok (s, none, none)

/-- `_create_task` lines 672–676: fetch the project name for the task's
`project_id` when the name is not already known. -/
def lookupProjectName (s : Store) (pid : Nat) : Except Err (Option String) :=
  match scalarOneOrNone (s.projects.filter (fun pr => pr.project_id == pid)) with
  | .error e => .error e
  | .ok (some pr) => .ok (some pr.name)
  | .ok none => .ok none

/-- `NLPProcessor._create_task` (lines 639–684).  The returned store is the
in-transaction state after the call, including writes staged before a
failure (a project auto-created at line 656 stays flushed in the session
when the subsequent task INSERT fails).  Defaults per source: status
`"pending"`, priority `"medium"`, creator `1`; `assigned_to` is never set
by this operation. -/
def create_task (s : Store) (p : CreateTaskParams) :
    Store × Except Err (TaskRec × Option String) :=
  match p.title with
  | none => (s, .error (.missingParam "title"))
  | some title =>
    match resolveProjectParam s title p.project_id with
    | .error e => (s, .error e)
    | .ok (s₁, pid?, pname?) =>
      let task : TaskRec :=
        { task_id := s₁.nextTaskId
          title := title
          description := p.description
          status := p.status.getD "pending"
          priority := p.priority.getD "medium"
          due_date := p.due_date
          project_id := pid?
          assigned_to := none
          created_by := p.created_by.getD 1 }
      if taskRowOk task then
        let s₂ := { s₁ with
          tasks := s₁.tasks ++ [task], nextTaskId := s₁.nextTaskId + 1 }
        match pid?, pname? with
        | some pid, none =>
          -- line 673: `if task.project_id and not project_name` (0 is falsy)
          if pid == 0 then (s₂, .ok (task, none))
          else
            match lookupProjectName s₂ pid with
            | .error e => (s₂, .error e)
            | .ok nm? => (s₂, .ok (task, nm?))
        | _, _ => (s₂, .ok (task, pname?))
      else (s₁, .error .checkFailed)

/-- `NLPProcessor._delete_task` (lines 730–756).  Note line 744's
`if not task_id`: a present but zero `task_id` is falsy in Python and takes
the "Task ID is required" branch, not the not-found branch. -/
def delete_task (s : Store) (p : DeleteTaskParams) :
    Store × Except Err RData :=
  if p.delete_all then
    ({ s with tasks := [] }, .ok (.deletedAllTasks s.tasks.length))
  else
    match p.task_id with
    | none => (s, .error .taskIdRequired)
    | some tid =>
      if tid == 0 then (s, .error .taskIdRequired)
      else
        match scalarOneOrNone (s.tasks.filter (fun t => t.task_id == tid)) with
        | .error e => (s, .error e)
        | .ok none => (s, .error (.taskNotFound tid))
        | .ok (some _) =>
          ({ s with tasks := s.tasks.filter (fun t => !(t.task_id == tid)) },
           .ok (.deletedTaskId tid))

/-- The `due_date` value of an `update_task` parameter set.  The date-phrase
resolver (`dateparser`) is an external collaborator, so the parameter
carries the outcome of the `_parse_date` call the source would make on it:
a resolved timestamp, a `ValueError`, or a falsy value (line 721's
`and value:` guard skips the parse and assigns the value as-is). -/
inductive DateParam where
  | parses (ts : Nat)
  | failsToParse
  | nullValue
deriving DecidableEq, Repr

/-- One entry of the `update_task` parameter dict as the field loop at
nlp_processor.py lines 719–723 sees it, in `params.items()` (insertion)
order.  `unknown` is a key for which `hasattr(task, field)` is false —
silently skipped.  The `task_id` key itself is excluded by the loop's
`field != "task_id"` guard and lives in `UpdateTaskParams.task_id`. -/
inductive UpdateField where
  | title (v : String)
  | description (v : String)
  | status (v : String)
  | priority (v : String)
  | due_date (v : DateParam)
  | project_id (v : Option Nat)
  | assigned_to (v : Option Nat)
  | unknown (name : String)
deriving DecidableEq, Repr

/-- Parameter dictionary of `_update_task`: the `task_id` entry plus the
remaining entries in dict-iteration order. -/
structure UpdateTaskParams where
  task_id : Option Nat := none
  fields : List UpdateField := []
deriving DecidableEq, Repr

/-- One `setattr(task, field, value)` of the loop body (with the `due_date`
parse first when applicable); `Err.dateUnparsable` is the `ValueError`
`_parse_date` raises. -/
def applyField (t : TaskRec) : UpdateField → Except Err TaskRec
  | .title v => .ok { t with title := v }
  | .description v => .ok { t with description := some v }
  | .status v => .ok { t with status := v }
  | .priority v => .ok { t with priority := v }
  | .due_date d =>
    match d with
    | .parses ts => .ok { t with due_date := some ts }
    | .failsToParse => .error .dateUnparsable
    | .nullValue => .ok { t with due_date := none }
  | .project_id v => .ok { t with project_id := v }
  | .assigned_to v => .ok { t with assigned_to := v }
  | .unknown _ => .ok t

/-- The field loop: mutations are applied one by one to the in-memory ORM
object; when one entry raises, the mutations already performed REMAIN on
the object (Python has no undo), and the loop aborts. -/
def applyFields (t : TaskRec) : List UpdateField → TaskRec × Option Err
  | [] => (t, none)
  | f :: fs =>
    match applyField t f with
    | .ok t' => applyFields t' fs
    | .error e => (t, some e)

/-- Replace the row with the given task's id (the UPDATE a flush of the
mutated ORM object performs; ids are the primary key). -/
def updateRow (s : Store) (t' : TaskRec) : Store :=
  { s with
    tasks := s.tasks.map (fun t => if t.task_id == t'.task_id then t' else t) }

/-- Result of one executor operation on a session:
* `store` — the in-transaction state (writes flushed so far);
* `result` — the returned value or the exception raised;
* `dirtyTask` — an ORM row mutated in memory but NOT yet flushed when the
  error was raised (only `update_task`'s field loop produces this); a later
  `commit` autoflushes it. -/
structure OpOutcome where
  store : Store
  result : Except Err RData
  dirtyTask : Option TaskRec := none
deriving DecidableEq, Repr

/-- `NLPProcessor._update_task` (lines 706–728).  `if not task_id` treats a
zero id as missing; the target row is fetched with `scalar_one_or_none`;
the field loop mutates the ORM object in memory; only then does line 725
flush — so an error raised INSIDE the loop (an unparsable `due_date`)
leaves the already-performed `setattr`s as dirty, un-flushed state on a
still-active transaction, while a CHECK violation surfaces at the flush
itself (`IntegrityError`, deactivating the transaction). -/
def update_task (s : Store) (p : UpdateTaskParams) : OpOutcome :=
  match p.task_id with
  | none => ⟨s, .error .taskIdRequired, none⟩
  | some tid =>
    if tid == 0 then ⟨s, .error .taskIdRequired, none⟩
    else
      match scalarOneOrNone (s.tasks.filter (fun t => t.task_id == tid)) with
      | .error e => ⟨s, .error e, none⟩
      | .ok none => ⟨s, .error (.taskNotFound tid), none⟩
      | .ok (some t0) =>
        match applyFields t0 p.fields with
        | (t', some e) => ⟨s, .error e, some t'⟩
        | (t', none) =>
          if taskRowOk t' then ⟨updateRow s t', .ok (.taskUpdated t'), none⟩
          else ⟨s, .error .checkFailed, none⟩

/-- The normalized `{operation, parameters}` pairs required by the claims. -/
inductive Operation where
  | createTask (p : CreateTaskParams)
  | updateTask (p : UpdateTaskParams)
  | deleteTask (p : DeleteTaskParams)
  | listTables
deriving DecidableEq, Repr

/-- `NLPProcessor._execute_operation` restricted to the embedded operations,
acting on the session's in-transaction state. -/
def execute_operation (s : Store) : Operation → OpOutcome
  | .createTask p =>
    match create_task s p with
    | (s', .ok (t, nm)) => ⟨s', .ok (.taskCreated t nm), none⟩
    | (s', .error e) => ⟨s', .error e, none⟩
  | .updateTask p => update_task s p
  | .deleteTask p =>
    match delete_task s p with
    | (s', .ok d) => ⟨s', .ok d, none⟩
    | (s', .error e) => ⟨s', .error e, none⟩
  | .listTables => ⟨s, .ok (.tables (list_tables_op s)), none⟩

/-- The source's error message for an executor failure as it reaches the
caller of `process_query`: the per-operation wrapper (`_create_task` lines
681–684, `_update_task` line 728, `_delete_task` line 755) followed by the
outer handler's `Unexpected error: ...` prefix (line 471). -/
def fallbackErrorMessage : Operation → Err → String
  | .createTask _, .missingParam k =>
    "Unexpected error: Missing required parameter: '" ++ k ++ "'"
  | .createTask _, _ => "Unexpected error: Error creating task: <exception>"
  | .updateTask _, _ => "Unexpected error: Error updating task: <exception>"
  | .deleteTask _, _ => "Unexpected error: Error deleting task(s): <exception>"
  | .listTables, _ => "Unexpected error: Error listing tables: <exception>"

/-- A failed flush (`IntegrityError`) leaves the SQLAlchemy transaction
DEACTIVATED: the next `commit` raises `PendingRollbackError` instead of
committing.  `Err.checkFailed` is the only failed-flush error in this
embedding; every other error is raised in Python while the SELECTs all
succeeded, so the transaction remains active. -/
def txnDeactivated : Err → Bool
  | .checkFailed => true
  | _ => false

/-- main.py lines 65–72: an exception raised AFTER `process_query` returned
(here: `session.commit()` raising) is caught, the session rolled back, and
a handler-level `Error processing query: ...` failure sent. -/
def pendingRollbackResp : Response :=
  ⟨false, "Error processing query: <PendingRollbackError>", none⟩

/-- Same `except` branch when the commit's autoflush of a dirty row
violates a CHECK constraint (`IntegrityError` at commit). -/
def commitFailedResp : Response :=
  ⟨false, "Error processing query: <IntegrityError>", none⟩

/-- One websocket request through the LLM fallback path (main.py lines
53–74, nlp_processor.py lines 299–473): a fresh session is opened on the
committed database and the operation executes; `process_query` catches
every operation exception and returns a result dict, so the handler always
reaches `await session.commit()` (line 57).  Then:
* operation succeeded — commit makes the flushed writes durable, and the
  handler sends `{"success": True, ...}` (line 61 HARDCODES `True`);
* the operation failed at a flush — the transaction is already deactivated,
  `commit` raises `PendingRollbackError`, the `except` branch (lines 65–72)
  rolls back: nothing from the request persists;
* the operation failed in Python with a dirty, un-flushed mutated row —
  `commit` autoflushes it; if the row passes the CHECK constraints the
  commit SUCCEEDS, persisting the partial mutations, and the failure
  message is sent inside a `"success": True` frame; if not, the commit's
  `IntegrityError` triggers the `except` branch and rollback;
* the operation failed in Python with no dirty row — `commit` succeeds,
  making any writes flushed before the error durable. -/
def handleFallbackRequest (db : Store) (op : Operation)
    (naturalResponse : String) : Store × Response :=
  let o := execute_operation db op
  match o.result with
  | .ok d => (o.store, ⟨true, naturalResponse, some d⟩)
  | .error e =>
    if txnDeactivated e then
      (db, pendingRollbackResp)
    else
      match o.dirtyTask with
      | some t' =>
        if taskRowOk t' then
          (updateRow o.store t', ⟨true, fallbackErrorMessage op e, none⟩)
        else (db, commitFailedResp)
      | none => (o.store, ⟨true, fallbackErrorMessage op e, none⟩)

/-! ## Generation step (chat_processor.py `generate_tasks`) -/

/-- The LLM completion as `generate_tasks` sees it: either a JSON object
(whose optional `"tasks"` list field is carried) or content that fails the
`startswith("{")` / `json.loads` checks. -/
inductive LLMGenReply where
  | jsonObj (tasksField : Option (List GenTaskJson))
  | notJson (s : String)
deriving DecidableEq, Repr

/-- chat_processor.py line 89: `all(k in task for k in ["title",
"description", "priority"])`. -/
def hasRequiredFields (t : GenTaskJson) : Bool :=
  t.title.isSome && t.description.isSome && t.priority.isSome

/-- chat_processor.py lines 91–92: an out-of-set priority is replaced by
`"medium"` in the parsed (in-memory) task dict. -/
def coerceTask (t : GenTaskJson) : GenTaskJson :=
  if validPriority (t.priority.getD "") then t
  else { t with priority := some "medium" }

/-- Generation failure result (the branch's distinct messages are collapsed
into one constant: no claim distinguishes them). -/
def genFailureResp : Response :=
  ⟨false, "Invalid response structure: <exception>", none⟩

/-- `ChatProcessor.generate_tasks` (lines 13–126).  The user query is
appended to the history first (line 17).  On a valid batch, the priorities
are coerced in the parsed `tasks_data` — which is what the result's `data`
carries — but the history appends `response_content`, the VERBATIM LLM
string (lines 95–98), which still holds the uncoerced priorities: a later
`json.loads` of that buffer entry yields the original, uncoerced batch.
On any validation failure nothing is appended beyond the user message. -/
def generate_tasks (hist : List Msg) (query : String) (reply : LLMGenReply) :
    List Msg × Response :=
  let hist₁ := hist ++ [⟨.user, .text query⟩]
  match reply with
  | .notJson _ => (hist₁, genFailureResp)
  | .jsonObj none => (hist₁, genFailureResp)
  | .jsonObj (some ts) =>
    if ts.all hasRequiredFields then
      let coerced := ts.map coerceTask
      (hist₁ ++ [⟨.assistant, .jsonObj (some ts)⟩],
       ⟨true,
        "Generated " ++ toString ts.length ++
          " tasks successfully. You can now add these tasks to your project.",
        some (.genTasks coerced)⟩)
    else (hist₁, genFailureResp)

/-! ## Import step (chat_processor.py `import_tasks`) -/

/-- The task row `import_tasks` builds at lines 151–158: description and
priority via `.get` with defaults, status `"pending"`, creator `1`. -/
def mkImportTask (nextId : Nat) (pid : Option Nat) (t : GenTaskJson) : TaskRec :=
  { task_id := nextId
    title := t.title.getD ""
    description := some (t.description.getD "")
    status := "pending"
    priority := t.priority.getD "medium"
    due_date := none
    project_id := pid
    assigned_to := none
    created_by := 1 }

/-- The rows staged by the import loop, with surrogate keys assigned in
insertion order at commit. -/
def mkImportTasks (nextId : Nat) (pid : Option Nat) :
    List GenTaskJson → List TaskRec
  | [] => []
  | t :: ts => mkImportTask nextId pid t :: mkImportTasks (nextId + 1) pid ts

/-- Import failure result (line 199–203; the wrapped exception text is not
claim-relevant). -/
def importFailureResp : Response :=
  ⟨false, "Error importing tasks: <exception>", none⟩

/-- Success message of `import_tasks` (lines 165–168). -/
def importSuccessMessage (n : Nat) (pn : Option String) : String :=
  "Successfully imported " ++ toString n ++ " tasks" ++
    (match pn with
     | some nm => " to project '" ++ nm ++ "'"
     | none => "") ++
    ". You can now view, edit, or manage these tasks."

/-- `ChatProcessor.import_tasks` (lines 128–203).  Resolves/creates the
destination project first; then reads `tasks_data["tasks"]` (`KeyError`
when absent) and each `task_data["title"]`; stages the rows and commits
(line 162) — SQLite rejecting a CHECK-violating row there.  Any exception
is caught and the session rolled back (line 198), so a failed import
leaves the committed store untouched.  The conversation history is not an
input and is never modified. -/
def import_tasks (tasksField : Option (List GenTaskJson))
    (project_name : Option String) (sess : Session) : Session × Response :=
  let projStep : Except Err (Store × Option (String × Nat)) :=
    match project_name with
    | none => .ok (sess.current, none)
    | some nm =>
      match scalarOneOrNone
          (sess.current.projects.filter (fun pr => pr.name == nm)) with
      | .error e => .error e
      | .ok (some pr) => .ok (sess.current, some (nm, pr.project_id))
      | .ok none =>
        let (s', pr) :=
          insertProject sess.current nm ("Project created for tasks: " ++ nm)
        .ok (s', some (nm, pr.project_id))
  match projStep with
  | .error _ => (sess.rollbackTxn, importFailureResp)
  | .ok (s₁, proj?) =>
    match tasksField with
    | none => (sess.rollbackTxn, importFailureResp)
    | some ts =>
      if ts.all (fun t => t.title.isSome) then
        let newTasks := mkImportTasks s₁.nextTaskId (proj?.map (·.2)) ts
        if newTasks.all taskRowOk then
          let s₂ := { s₁ with
            tasks := s₁.tasks ++ newTasks
            nextTaskId := s₁.nextTaskId + ts.length }
          (Session.commitTxn ⟨sess.committed, s₂⟩,
           ⟨true, importSuccessMessage ts.length project_name,
            some (.importedTasks newTasks proj?)⟩)
        else (sess.rollbackTxn, importFailureResp)
      else (sess.rollbackTxn, importFailureResp)

/-- `ChatProcessor.clear_conversation` (lines 205–207): the only code that
empties the pending-generation buffer. -/
def clear_conversation (_hist : List Msg) : List Msg := []

/-! ## Import branch of `process_query` (nlp_processor.py lines 258–297) -/

/-- nlp_processor.py line 287/289. -/
def noTasksResp : Response :=
  ⟨false, "No tasks found to import. Please generate tasks first.", none⟩

/-- nlp_processor.py lines 282–286 (`json.JSONDecodeError`). -/
def noValidTasksResp : Response :=
  ⟨false, "No valid tasks found to import. Please generate tasks first.", none⟩

/-- Lines 267–272: the optional `to project '<name>'` suffix. -/
def extractImportProjectName (q : String) : Option String :=
  if pyContains q "to project" then
    match (pySplitOn q "to project")[1]? with
    | some rest => some (stripQuotes (pyStrip rest))
    | none => none
  else none

/-- The body of the task-import branch: consult the LAST history entry; an
assistant entry whose content parses as JSON is handed to `import_tasks`;
otherwise fail without touching the session.  The history is returned
unchanged — nothing in this branch writes to it. -/
def importBranch (hist : List Msg) (q : String) (sess : Session) :
    List Msg × Session × Response :=
  let pn := extractImportProjectName q
  match hist.getLast? with
  | some m =>
    if m.role == .assistant then
      match m.content with
      | .jsonObj tf =>
        let (sess', r) := import_tasks tf pn sess
        (hist, sess', r)
      | .text _ => (hist, sess, noValidTasksResp)
    else (hist, sess, noTasksResp)
  | none => (hist, sess, noTasksResp)

/-- One websocket request that took the import branch: fresh session on the
committed database, the branch runs (returning a result in every case), and
the handler commits (main.py line 57). -/
def handleImportRequest (db : Store) (hist : List Msg) (q : String) :
    Store × List Msg × Response :=
  let (hist', sess', resp) := importBranch hist q (Session.fresh db)
  ((sess'.commitTxn).committed, hist', resp)

/-! # Theorems -/

/-! ## C1 — schema listing -/

/-- **C1** counterexample.  The claim states the schema-listing output
reflects the actual persisted schema rather than a hardcoded table list.
It is false: `_list_tables` returns a fixed literal, and that literal does
not match the schema `Base.metadata.create_all` persists — the `tasks`
table's `description` column is reported with declared type `TEXT`, while
the persisted column (from `Column(String)`) is `VARCHAR`. -/
theorem c1_counterexample_hardcoded_schema :
    list_tables_op ({} : Store) ≠ actualSchemaTables ∧
    ((list_tables_op ({} : Store)).find? (fun t => t.name == "tasks")).map
        (fun t => t.columns.filter (fun c => c.name == "description")) =
      some [⟨"description", "TEXT", true⟩] ∧
    (actualSchemaTables.find? (fun t => t.name == "tasks")).map
        (fun t => t.columns.filter (fun c => c.name == "description")) =
      some [⟨"description", "VARCHAR", true⟩] :=
  ⟨by decide, by decide, by decide⟩

/-- **C1** (amended): the schema-listing operation returns a fixed,
hardcoded five-table descriptor list, independent of the store — so two
consecutive calls with no schema change return identical output, and the
table names coincide (as a multiset) with the tables the model layer
persists — but the column descriptors do not all reflect the actual
persisted schema. -/
theorem c1_schema_listing_amended (s s' : Store) :
    list_tables_op s = list_tables_op s' ∧
    list_tables_op s = hardcodedTables ∧
    ((list_tables_op s).map TableInfo.name).Perm
      (actualSchemaTables.map TableInfo.name) := by
  refine ⟨rfl, rfl, ?_⟩
  show (hardcodedTables.map TableInfo.name).Perm
    (actualSchemaTables.map TableInfo.name)
  decide

/-! ## C3 — rule match never reaches the LLM fallback -/

/-- The dispatch chain computes exactly the first rule family (in priority
order) whose guard accepts the query, with the LLM fallback for no match. -/
theorem classify_eq_firstMatchingFamily (q : String) :
    classify q = firstMatchingFamily q := by
  unfold classify firstMatchingFamily ruleFamilies
  cases h1 : isBulkUpdate q <;> cases h2 : isSchemaList q <;>
    cases h3 : isDeleteAllProjects q <;> cases h4 : isDeleteSpecificProjects q <;>
      cases h5 : isDeleteAllTasks q <;> cases h6 : isTaskGeneration q <;>
        cases h7 : isTaskImport q <;>
          simp [List.find?, h1, h2, h3, h4, h5, h6, h7]

/-- If some rule guard accepts the query, the dispatch chain does not land
on the LLM fallback. -/
theorem classify_ne_fallback_of_match (q : String)
    (h : matchesSomeRule q = true) :
    classify q ≠ CommandFamily.llmFallback := by
  unfold classify
  unfold matchesSomeRule ruleFamilies at h
  cases h1 : isBulkUpdate q <;> cases h2 : isSchemaList q <;>
    cases h3 : isDeleteAllProjects q <;> cases h4 : isDeleteSpecificProjects q <;>
      cases h5 : isDeleteAllTasks q <;> cases h6 : isTaskGeneration q <;>
        cases h7 : isTaskImport q <;>
          simp_all [List.any, h1, h2, h3, h4, h5, h6, h7]

/-- **C3** (confirmed): for every input whose lowered, stripped form matches
one of the rule-based patterns, `process_query` dispatches to that rule's
branch — each such branch returns on every path, so the LLM intent-fallback
call is never reached — and the branch taken is the first matching family
in the fixed priority order, with no backtracking. -/
theorem c3_rule_match_never_reaches_llm (query : String)
    (h : matchesSomeRule (pyStrip (pyLower query)) = true) :
    dispatch query ≠ CommandFamily.llmFallback ∧
    dispatch query = firstMatchingFamily (pyStrip (pyLower query)) :=
  ⟨classify_ne_fallback_of_match (pyStrip (pyLower query)) h,
   classify_eq_firstMatchingFamily (pyStrip (pyLower query))⟩

/-- **C3** witness: the concrete command `"Delete All Tasks  "` matches the
delete-all-tasks rule and is dispatched to it, not to the LLM fallback. -/
theorem c3_rule_match_never_reaches_llm_witness :
    matchesSomeRule (pyStrip (pyLower "Delete All Tasks  ")) = true ∧
    (dispatch "Delete All Tasks  " ≠ CommandFamily.llmFallback ∧
     dispatch "Delete All Tasks  " =
       firstMatchingFamily (pyStrip (pyLower "Delete All Tasks  "))) ∧
    dispatch "Delete All Tasks  " = CommandFamily.deleteAllTasks :=
  ⟨by decide, c3_rule_match_never_reaches_llm "Delete All Tasks  " (by decide),
   by decide⟩

/-! ## C4 — `between N and M` is inclusive -/

/-- If splitting on `sub` has a piece at index 1, then `sub` occurs in the
string (Python's `sub in s`). -/
theorem pyContains_of_split (q sub rest : String)
    (h : (pySplitOn q sub)[1]? = some rest) : pyContains q sub = true := by
  have hlen : 1 < (pySplitOn q sub).length := by
    by_contra hc
    rw [List.getElem?_eq_none (by omega)] at h
    exact Option.noConfusion h
  unfold pyContains
  simp only [bne_iff_ne, ne_eq]
  omega

/-- **C4** (confirmed): whenever the bulk-update command's selection parses
as `between N and M` (no all-tasks phrase and no greater-than/less-than
keyword, and the two bounds parse as integers the way the source extracts
them), the selected ids are exactly the stored task ids lying in the CLOSED
interval `[N, M]` — `Task.task_id.between` is SQL `BETWEEN`, inclusive at
both bounds. -/
theorem c4_between_selection_inclusive
    (q : String) (taskIds : List Nat) (n m : Int) (rest p0 p1 tok1 : String)
    (hAll : (pyStartsWith q "set all tasks" ||
             pyStartsWith q "assign all tasks") = false)
    (hGt : pyContains q "greater than" = false)
    (hLt : pyContains q "less than" = false)
    (hRest : (pySplitOn q "between")[1]? = some rest)
    (hP0 : (pySplitOn rest "and")[0]? = some p0)
    (hN : pyInt? (pyStrip p0) = some n)
    (hP1 : (pySplitOn rest "and")[1]? = some p1)
    (hTok : (pySplitWs p1)[0]? = some tok1)
    (hM : pyInt? tok1 = some m) :
    extractTaskIds q taskIds =
      .ok (taskIds.filter (fun i : Nat => n ≤ (i : Int) && (i : Int) ≤ m)) ∧
    ∀ i : Nat,
      i ∈ taskIds.filter (fun i : Nat => n ≤ (i : Int) && (i : Int) ≤ m) ↔
        (i ∈ taskIds ∧ n ≤ (i : Int) ∧ (i : Int) ≤ m) := by
  have hBetween := pyContains_of_split q "between" rest hRest
  constructor
  · unfold extractTaskIds
    simp only [hAll, hGt, hLt, hBetween, hRest, hP0, hN, hP1, hTok, hM,
      Bool.false_eq_true, if_false, if_true]
  · intro i
    simp [List.mem_filter]

/-- **C4** witness: `"for tasks between 5 and 10 set status to pending"`
over stored ids `[3, 5, 7, 10, 11]` selects `[5, 7, 10]` — both bounds
included. -/
theorem c4_between_selection_inclusive_witness :
    (pySplitOn "for tasks between 5 and 10 set status to pending"
        "between")[1]? = some " 5 and 10 set status to pending" ∧
    pyInt? (pyStrip " 5 ") = some 5 ∧
    extractTaskIds "for tasks between 5 and 10 set status to pending"
        [3, 5, 7, 10, 11] =
      .ok ([3, 5, 7, 10, 11].filter
            (fun i : Nat => (5 : Int) ≤ (i : Int) && (i : Int) ≤ (10 : Int))) ∧
    [3, 5, 7, 10, 11].filter
        (fun i : Nat => (5 : Int) ≤ (i : Int) && (i : Int) ≤ (10 : Int)) =
      [5, 7, 10] :=
  ⟨by decide, by decide,
   (c4_between_selection_inclusive
      "for tasks between 5 and 10 set status to pending" [3, 5, 7, 10, 11]
      5 10 " 5 and 10 set status to pending" " 5 "
      " 10 set status to pending" "10"
      (by decide) (by decide) (by decide) (by decide) (by decide)
      (by decide) (by decide) (by decide) (by decide)).1,
   by decide⟩

/-! ## C2 — rollback on error during a mutating operation -/

/-- Filtering commutes with a map that preserves the predicate pointwise. -/
theorem filter_map_comm {α : Type} (f : α → α) (p : α → Bool)
    (hpf : ∀ x, p (f x) = p x) :
    ∀ l : List α, (l.map f).filter p = (l.filter p).map f := by
  intro l
  induction l with
  | nil => rfl
  | cons a l ih =>
    by_cases hpa : p a = true
    · simp [List.filter_cons, hpf, hpa, ih]
    · simp [List.filter_cons, hpf, hpa, ih]

/-- **C2** counterexample.  The claim states that ANY error during a
mutating operation rolls back the transaction and the store after the
failed command equals the store before it.  Take `update_task` on task 1
with the field dict `{status: "completed", due_date: <unparsable>}`: the
loop performs `setattr(task, "status", "completed")`, then `_parse_date`
raises `ValueError` — an error raised in Python, with no failed flush, so
the session's transaction stays active and the already-performed mutation
remains as dirty ORM state.  `process_query` returns a failure dict, the
handler's `await session.commit()` then AUTOFLUSHES the dirty row (status
`"completed"` passes the CHECK constraint) and commits: the store after the
failed command holds the half-applied update. -/
theorem c2_counterexample_error_not_rolled_back :
    (execute_operation
        ({ tasks := [⟨1, "a", none, "pending", "medium", none, none,
                       none, 1⟩],
           nextTaskId := 2 } : Store)
        (.updateTask { task_id := some 1,
                       fields := [.status "completed",
                                  .due_date .failsToParse] })).result =
      .error .dateUnparsable ∧
    handleFallbackRequest
        ({ tasks := [⟨1, "a", none, "pending", "medium", none, none,
                       none, 1⟩],
           nextTaskId := 2 } : Store)
        (.updateTask { task_id := some 1,
                       fields := [.status "completed",
                                  .due_date .failsToParse] }) "r" =
      (({ tasks := [⟨1, "a", none, "completed", "medium", none, none,
                      none, 1⟩],
          nextTaskId := 2 } : Store),
       ⟨true, "Unexpected error: Error updating task: <exception>", none⟩) ∧
    ({ tasks := [⟨1, "a", none, "completed", "medium", none, none, none, 1⟩],
       nextTaskId := 2 } : Store) ≠
      ({ tasks := [⟨1, "a", none, "pending", "medium", none, none, none, 1⟩],
         nextTaskId := 2 } : Store) :=
  ⟨by decide, by decide, by decide⟩

/-- **C2** (amended): errors during a mutating operation are caught inside
`process_query` and returned as a failure result, after which the
connection handler always reaches `await session.commit()`.  What happens
then depends on WHERE the error arose.  (a) An error from a failed flush
(e.g. the CHECK-violating task INSERT after a project was auto-created for
a textual `project_id`) has already deactivated the transaction: the commit
raises `PendingRollbackError` and the handler's `except` branch rolls back,
so nothing from the request persists.  (b) An error raised in Python with
no failed flush — here an unparsable `due_date` reached midway through
`update_task`'s field loop — leaves the transaction active: the commit
autoflushes the mutations applied before the error (when they satisfy the
row constraints) and makes them durable, so partial entity state IS
retained, inside a wire frame whose `success` is the hardcoded `True`. -/
theorem c2_error_rollback_amended
    (db : Store) (nr ttl nm prio v : String) (tid : Nat) (t0 : TaskRec) :
    (validPriority prio = false →
      db.projects.filter (fun pr => pr.name == nm) = [] →
      handleFallbackRequest db
          (.createTask { title := some ttl, project_id := some (.byName nm),
                         priority := some prio }) nr =
        (db, pendingRollbackResp)) ∧
    (tid ≠ 0 →
      db.tasks.filter (fun t => t.task_id == tid) = [t0] →
      validStatus v = true →
      validPriority t0.priority = true →
      handleFallbackRequest db
          (.updateTask { task_id := some tid,
                         fields := [.status v, .due_date .failsToParse] }) nr =
        (updateRow db { t0 with status := v },
         ⟨true, "Unexpected error: Error updating task: <exception>", none⟩) ∧
      (v ≠ t0.status → updateRow db { t0 with status := v } ≠ db)) := by
  constructor
  · intro hPrio hAbsent
    simp [handleFallbackRequest, execute_operation, create_task,
      resolveProjectParam, insertProject, scalarOneOrNone, hAbsent,
      taskRowOk, hPrio, txnDeactivated]
  · intro hTid hFilter hStatus hPrioOK
    constructor
    · simp [handleFallbackRequest, execute_operation, update_task, hTid,
        hFilter, scalarOneOrNone, applyFields, applyField, taskRowOk,
        hStatus, hPrioOK, txnDeactivated, fallbackErrorMessage]
    · intro hv hEqStore
      have ht0 : (t0.task_id == tid) = true := by
        have hmem : t0 ∈ db.tasks.filter (fun t => t.task_id == tid) := by
          rw [hFilter]
          exact List.mem_singleton_self t0
        exact (List.mem_filter.mp hmem).2
      have htid : t0.task_id = tid := by simpa using ht0
      have hpf : ∀ x : TaskRec,
          ((if x.task_id == ({ t0 with status := v } : TaskRec).task_id
              then ({ t0 with status := v } : TaskRec) else x).task_id ==
            tid) = (x.task_id == tid) := by
        intro x
        cases hx : (x.task_id == ({ t0 with status := v } : TaskRec).task_id)
        · simp [hx]
        · have hxe : x.task_id = t0.task_id := by simpa using hx
          simp [hx, htid, hxe]
      have hmap : db.tasks.map
          (fun t => if t.task_id == ({ t0 with status := v } : TaskRec).task_id
            then ({ t0 with status := v } : TaskRec) else t) = db.tasks :=
        congrArg Store.tasks hEqStore
      have hff := filter_map_comm
        (fun t : TaskRec =>
          if t.task_id == ({ t0 with status := v } : TaskRec).task_id
            then ({ t0 with status := v } : TaskRec) else t)
        (fun t : TaskRec => t.task_id == tid) hpf db.tasks
      rw [hmap, hFilter] at hff
      have hone : t0 = ({ t0 with status := v } : TaskRec) := by
        simpa [htid] using hff
      have hstat := congrArg TaskRec.status hone
      simp at hstat
      exact hv hstat.symm

/-- **C2** witness: the amended statement on a one-task store — the
create-with-`"urgent"` request is fully rolled back, while the
update-with-unparsable-date request durably flips task 1's status to
`"completed"` despite the operation having failed. -/
theorem c2_error_rollback_amended_witness :
    validPriority "urgent" = false ∧
    validStatus "completed" = true ∧
    handleFallbackRequest
        ({ tasks := [⟨1, "a", none, "pending", "medium", none, none,
                       none, 1⟩],
           nextTaskId := 2 } : Store)
        (.createTask { title := some "t", project_id := some (.byName "p"),
                       priority := some "urgent" }) "r" =
      (({ tasks := [⟨1, "a", none, "pending", "medium", none, none,
                      none, 1⟩],
          nextTaskId := 2 } : Store),
       pendingRollbackResp) ∧
    handleFallbackRequest
        ({ tasks := [⟨1, "a", none, "pending", "medium", none, none,
                       none, 1⟩],
           nextTaskId := 2 } : Store)
        (.updateTask { task_id := some 1,
                       fields := [.status "completed",
                                  .due_date .failsToParse] }) "r" =
      (updateRow
        ({ tasks := [⟨1, "a", none, "pending", "medium", none, none,
                       none, 1⟩],
           nextTaskId := 2 } : Store)
        { (⟨1, "a", none, "pending", "medium", none, none, none,
            1⟩ : TaskRec) with status := "completed" },
       ⟨true, "Unexpected error: Error updating task: <exception>", none⟩) ∧
    updateRow
        ({ tasks := [⟨1, "a", none, "pending", "medium", none, none,
                       none, 1⟩],
           nextTaskId := 2 } : Store)
        { (⟨1, "a", none, "pending", "medium", none, none, none,
            1⟩ : TaskRec) with status := "completed" } ≠
      ({ tasks := [⟨1, "a", none, "pending", "medium", none, none, none, 1⟩],
         nextTaskId := 2 } : Store) :=
  ⟨by decide, by decide,
   (c2_error_rollback_amended
      ({ tasks := [⟨1, "a", none, "pending", "medium", none, none, none, 1⟩],
         nextTaskId := 2 } : Store) "r" "t" "p" "urgent" "completed" 1
      ⟨1, "a", none, "pending", "medium", none, none, none, 1⟩).1
     (by decide) (by decide),
   ((c2_error_rollback_amended
      ({ tasks := [⟨1, "a", none, "pending", "medium", none, none, none, 1⟩],
         nextTaskId := 2 } : Store) "r" "t" "p" "urgent" "completed" 1
      ⟨1, "a", none, "pending", "medium", none, none, none, 1⟩).2
     (by decide) (by decide) (by decide) (by decide)).1,
   ((c2_error_rollback_amended
      ({ tasks := [⟨1, "a", none, "pending", "medium", none, none, none, 1⟩],
         nextTaskId := 2 } : Store) "r" "t" "p" "urgent" "completed" 1
      ⟨1, "a", none, "pending", "medium", none, none, none, 1⟩).2
     (by decide) (by decide) (by decide) (by decide)).2 (by decide)⟩

/-! ## C5 — textual `project_id` is a project name -/

/-- **C5** counterexample.  The claim quantifies over EVERY create_task call
with a textual `project_id` and states that when a project with that name
exists, its numeric id is used (and the one new task references it).  But
project names are not unique, and the lookup uses `scalar_one_or_none`,
which raises `MultipleResultsFound` when two projects share the name: with
projects `1` and `2` both named `"p"`, the call fails and creates no task at
all — no numeric id is used. -/
theorem c5_counterexample_duplicate_project_names :
    create_task
        ({ projects := [⟨1, "p", none⟩, ⟨2, "p", none⟩],
           nextProjectId := 3 } : Store)
        { title := some "t", project_id := some (.byName "p") } =
      (({ projects := [⟨1, "p", none⟩, ⟨2, "p", none⟩],
          nextProjectId := 3 } : Store),
       .error .multipleResults) :=
  by decide

/-- **C5** (amended): for a `create_task` call whose `project_id` is the
string `nm` (with the required title present and valid/defaulted status and
priority): if EXACTLY ONE project named `nm` exists, its numeric id is used
and no project is created; if none exists, exactly one project named `nm`
is created and the one new task references it, and repeating the same call
on the resulting store creates no second project (the repeat succeeds
reusing the existing one); if two or more projects share the name, the call
fails with `MultipleResultsFound` and changes nothing. -/
theorem c5_string_project_id_amended
    (s : Store) (p : CreateTaskParams) (nm ttl : String)
    (hTitle : p.title = some ttl)
    (hProj : p.project_id = some (.byName nm))
    (hStatus : validStatus (p.status.getD "pending") = true)
    (hPrio : validPriority (p.priority.getD "medium") = true) :
    (∀ pr : ProjectRec, s.projects.filter (fun x => x.name == nm) = [pr] →
      ∃ t : TaskRec,
        create_task s p =
          ({ s with tasks := s.tasks ++ [t], nextTaskId := s.nextTaskId + 1 },
           .ok (t, some nm)) ∧
        t.project_id = some pr.project_id) ∧
    (s.projects.filter (fun x => x.name == nm) = [] →
      ∃ t : TaskRec,
        create_task s p =
          ({ s with
              projects := s.projects ++
                [⟨s.nextProjectId, nm,
                  some ("Project created for task: " ++ ttl)⟩],
              nextProjectId := s.nextProjectId + 1,
              tasks := s.tasks ++ [t],
              nextTaskId := s.nextTaskId + 1 },
           .ok (t, some nm)) ∧
        t.project_id = some s.nextProjectId ∧
        (create_task
            ({ s with
                projects := s.projects ++
                  [⟨s.nextProjectId, nm,
                    some ("Project created for task: " ++ ttl)⟩],
                nextProjectId := s.nextProjectId + 1,
                tasks := s.tasks ++ [t],
                nextTaskId := s.nextTaskId + 1 } : Store) p).1.projects =
          s.projects ++
            [⟨s.nextProjectId, nm,
              some ("Project created for task: " ++ ttl)⟩] ∧
        ∃ t' pn',
          (create_task
              ({ s with
                  projects := s.projects ++
                    [⟨s.nextProjectId, nm,
                      some ("Project created for task: " ++ ttl)⟩],
                  nextProjectId := s.nextProjectId + 1,
                  tasks := s.tasks ++ [t],
                  nextTaskId := s.nextTaskId + 1 } : Store) p).2 =
            .ok (t', pn')) ∧
    (∀ (pr₁ pr₂ : ProjectRec) (rest : List ProjectRec),
      s.projects.filter (fun x => x.name == nm) = pr₁ :: pr₂ :: rest →
      create_task s p = (s, .error .multipleResults)) := by
  refine ⟨?_, ?_, ?_⟩
  · intro pr hpr
    refine ⟨{ task_id := s.nextTaskId, title := ttl,
              description := p.description,
              status := p.status.getD "pending",
              priority := p.priority.getD "medium",
              due_date := p.due_date, project_id := some pr.project_id,
              assigned_to := none, created_by := p.created_by.getD 1 },
            ?_, rfl⟩
    simp [create_task, hTitle, hProj, resolveProjectParam, hpr,
      scalarOneOrNone, taskRowOk, hStatus, hPrio]
  · intro hnone
    have hfilterB :
        (s.projects ++
            [(⟨s.nextProjectId, nm,
               some ("Project created for task: " ++ ttl)⟩ : ProjectRec)]).filter
            (fun x => x.name == nm) =
          [⟨s.nextProjectId, nm,
            some ("Project created for task: " ++ ttl)⟩] := by
      simp [List.filter_append, hnone]
    refine ⟨{ task_id := s.nextTaskId, title := ttl,
              description := p.description,
              status := p.status.getD "pending",
              priority := p.priority.getD "medium",
              due_date := p.due_date, project_id := some s.nextProjectId,
              assigned_to := none, created_by := p.created_by.getD 1 },
            ?_, rfl, ?_, ?_⟩
    · simp [create_task, hTitle, hProj, resolveProjectParam, insertProject,
        hnone, scalarOneOrNone, taskRowOk, hStatus, hPrio]
    · simp [create_task, hTitle, hProj, resolveProjectParam, hfilterB,
        scalarOneOrNone, taskRowOk, hStatus, hPrio]
    · refine ⟨{ task_id := s.nextTaskId + 1, title := ttl,
                description := p.description,
                status := p.status.getD "pending",
                priority := p.priority.getD "medium",
                due_date := p.due_date, project_id := some s.nextProjectId,
                assigned_to := none, created_by := p.created_by.getD 1 },
              some nm, ?_⟩
      simp [create_task, hTitle, hProj, resolveProjectParam, hfilterB,
        scalarOneOrNone, taskRowOk, hStatus, hPrio]
  · intro pr₁ pr₂ rest hdup
    simp [create_task, hTitle, hProj, resolveProjectParam, hdup,
      scalarOneOrNone]

/-- **C5** witness: at the empty store, creating a task with textual
project id `"p"` creates project 1 and one task referencing it, and the
repeated call on the resulting store adds no second project. -/
theorem c5_string_project_id_amended_witness :
    (({} : Store).projects.filter (fun x => x.name == "p") = []) ∧
    (∃ t : TaskRec,
      create_task ({} : Store)
          { title := some "t", project_id := some (.byName "p") } =
        ({ ({} : Store) with
            projects := ({} : Store).projects ++
              [⟨({} : Store).nextProjectId, "p",
                some ("Project created for task: " ++ "t")⟩],
            nextProjectId := ({} : Store).nextProjectId + 1,
            tasks := ({} : Store).tasks ++ [t],
            nextTaskId := ({} : Store).nextTaskId + 1 },
         .ok (t, some "p")) ∧
      t.project_id = some ({} : Store).nextProjectId ∧
      (create_task
          ({ ({} : Store) with
              projects := ({} : Store).projects ++
                [⟨({} : Store).nextProjectId, "p",
                  some ("Project created for task: " ++ "t")⟩],
              nextProjectId := ({} : Store).nextProjectId + 1,
              tasks := ({} : Store).tasks ++ [t],
              nextTaskId := ({} : Store).nextTaskId + 1 } : Store)
          { title := some "t", project_id := some (.byName "p") }).1.projects =
        ({} : Store).projects ++
          [⟨({} : Store).nextProjectId, "p",
            some ("Project created for task: " ++ "t")⟩] ∧
      ∃ t' pn',
        (create_task
            ({ ({} : Store) with
                projects := ({} : Store).projects ++
                  [⟨({} : Store).nextProjectId, "p",
                    some ("Project created for task: " ++ "t")⟩],
                nextProjectId := ({} : Store).nextProjectId + 1,
                tasks := ({} : Store).tasks ++ [t],
                nextTaskId := ({} : Store).nextTaskId + 1 } : Store)
            { title := some "t", project_id := some (.byName "p") }).2 =
          .ok (t', pn')) :=
  ⟨by decide,
   (c5_string_project_id_amended ({} : Store)
      { title := some "t", project_id := some (.byName "p") } "p" "t"
      rfl rfl (by decide) (by decide)).2.1 (by decide)⟩


/-! ## C6 — deleting a missing task -/

/-- **C6** counterexample.  The claim covers EVERY `task_id` not present in
the store.  The id `0` is never present (surrogate keys start at 1), yet
`if not task_id:` treats the integer `0` as falsy, so the call fails with
the "Task ID is required" message — a missing-parameter failure, not a
NotFound-style one.  The store is still left unchanged. -/
theorem c6_counterexample_zero_task_id :
    (∀ t ∈ ({ tasks := [⟨1, "a", none, "pending", "medium", none, none,
                          none, 1⟩],
               nextTaskId := 2 } : Store).tasks, t.task_id ≠ 0) ∧
    delete_task
        ({ tasks := [⟨1, "a", none, "pending", "medium", none, none,
                       none, 1⟩],
           nextTaskId := 2 } : Store)
        { delete_all := false, task_id := some 0 } =
      (({ tasks := [⟨1, "a", none, "pending", "medium", none, none,
                      none, 1⟩],
          nextTaskId := 2 } : Store),
       .error .taskIdRequired) ∧
    ∀ tid : Nat, (Err.taskIdRequired : Err) ≠ .taskNotFound tid :=
  ⟨by decide, by decide, fun _ hc => Err.noConfusion hc⟩

/-- **C6** (amended): for every NONZERO `task_id` not present in the store
(and no `delete_all` flag), `delete_task` fails with the NotFound error for
that id and returns the store unchanged — every table's rows are exactly
what they were before the call. -/
theorem c6_delete_missing_task_notfound (s : Store) (tid : Nat)
    (hNz : tid ≠ 0)
    (hAbs : ∀ t ∈ s.tasks, t.task_id ≠ tid) :
    delete_task s { delete_all := false, task_id := some tid } =
      (s, .error (.taskNotFound tid)) := by
  have hfilter : s.tasks.filter (fun t => t.task_id == tid) = [] := by
    rw [List.filter_eq_nil_iff]
    intro t ht
    simpa using hAbs t ht
  simp [delete_task, hNz, hfilter, scalarOneOrNone]

/-- **C6** witness: deleting id 7 from a one-task store (holding task 1)
returns the NotFound failure and the unchanged store. -/
theorem c6_delete_missing_task_notfound_witness :
    (7 : Nat) ≠ 0 ∧
    (∀ t ∈ ({ tasks := [⟨1, "a", none, "pending", "medium", none, none,
                          none, 1⟩],
               nextTaskId := 2 } : Store).tasks, t.task_id ≠ 7) ∧
    delete_task
        ({ tasks := [⟨1, "a", none, "pending", "medium", none, none,
                       none, 1⟩],
           nextTaskId := 2 } : Store)
        { delete_all := false, task_id := some 7 } =
      (({ tasks := [⟨1, "a", none, "pending", "medium", none, none,
                      none, 1⟩],
          nextTaskId := 2 } : Store),
       .error (.taskNotFound 7)) :=
  ⟨by decide, by decide,
   c6_delete_missing_task_notfound
     ({ tasks := [⟨1, "a", none, "pending", "medium", none, none, none, 1⟩],
        nextTaskId := 2 } : Store) 7 (by decide) (by decide)⟩

/-! ## C7 — import with no prior generation -/

/-- A list's last element (when present) is a member of the list. -/
theorem mem_of_getLastOpt {α : Type} {l : List α} {a : α}
    (h : l.getLast? = some a) : a ∈ l := by
  have hx : a ∈ l.getLast? := h
  obtain ⟨hne, rfl⟩ := List.mem_getLast?_eq_getLast hx
  exact List.getLast_mem hne

/-- The import branch, run with a conversation history that contains no
assistant entry, fails with the "No tasks found to import" result and
touches nothing. -/
theorem importBranch_no_assistant (hist : List Msg) (q : String)
    (sess : Session) (hIdle : ∀ m ∈ hist, m.role ≠ Role.assistant) :
    importBranch hist q sess = (hist, sess, noTasksResp) := by
  rcases hLast : hist.getLast? with _ | m
  · simp [importBranch, hLast]
  · have hm : m ∈ hist := mem_of_getLastOpt hLast
    have hne : (m.role == Role.assistant) = false := by
      cases hr : m.role with
      | user => rfl
      | assistant => exact absurd hr (hIdle m hm)
    simp [importBranch, hLast, hne]

/-- **C7** (confirmed): an import command issued while the generation/import
sub-flow is idle — the conversation history holds no assistant entry, in
particular when it is empty — returns the "no tasks to import" failure, the
session is untouched, and a full request leaves the committed store exactly
as it was: no task and no project is added. -/
theorem c7_import_without_generation_fails
    (db : Store) (hist : List Msg) (q : String) (sess : Session)
    (hIdle : ∀ m ∈ hist, m.role ≠ Role.assistant) :
    importBranch hist q sess = (hist, sess, noTasksResp) ∧
    handleImportRequest db hist q = (db, hist, noTasksResp) ∧
    noTasksResp.success = false := by
  refine ⟨importBranch_no_assistant hist q sess hIdle, ?_, rfl⟩
  have h := importBranch_no_assistant hist q (⟨db, db⟩ : Session) hIdle
  simp [handleImportRequest, Session.fresh, Session.commitTxn, h]

/-- **C7** witness: importing against the empty history leaves the empty
store empty and fails. -/
theorem c7_import_without_generation_fails_witness :
    (∀ m ∈ ([] : List Msg), m.role ≠ Role.assistant) ∧
    (importBranch [] "add these tasks" (Session.fresh ({} : Store)) =
      ([], Session.fresh ({} : Store), noTasksResp) ∧
     handleImportRequest ({} : Store) [] "add these tasks" =
      (({} : Store), [], noTasksResp) ∧
     noTasksResp.success = false) :=
  ⟨fun m hm => absurd hm (List.not_mem_nil m),
   c7_import_without_generation_fails ({} : Store) [] "add these tasks"
     (Session.fresh ({} : Store)) (fun m hm => absurd hm (List.not_mem_nil m))⟩

/-! ## C8 — the pending-import buffer survives a successful import -/

/-- Appending a last element determines `getLast?`. -/
theorem getLastOpt_append_singleton {α : Type} (l : List α) (a : α) :
    (l ++ [a]).getLast? = some a := by
  rw [List.getLast?_append_cons]
  rfl

/-- The import loop stages one row per buffered task. -/
theorem mkImportTasks_length (pid : Option Nat) :
    ∀ (ts : List GenTaskJson) (nextId : Nat),
      (mkImportTasks nextId pid ts).length = ts.length := by
  intro ts
  induction ts with
  | nil => intro n; rfl
  | cons t ts ih => intro n; simp [mkImportTasks, ih]

/-- The staged rows pass the CHECK constraints exactly when every buffered
task's (defaulted) priority is in the allowed set — status is always the
valid constant `"pending"`. -/
theorem mkImportTasks_all_ok (pid : Option Nat) :
    ∀ (ts : List GenTaskJson) (nextId : Nat),
      (mkImportTasks nextId pid ts).all taskRowOk =
        ts.all (fun t => validPriority (t.priority.getD "medium")) := by
  intro ts
  induction ts with
  | nil => intro n; rfl
  | cons t ts ih =>
    intro n
    have hps : validStatus "pending" = true := by decide
    simp [mkImportTasks, mkImportTask, taskRowOk, hps, ih]

/-- One full import request over a history ending in an assistant JSON
batch, with no `to project` suffix and an importable batch: the batch is
appended to the store and committed, and the history is returned as it
was. -/
theorem handleImportRequest_assistant_json
    (db : Store) (pre : List Msg) (ts : List GenTaskJson) (q : String)
    (hNoProj : pyContains q "to project" = false)
    (hTitles : ts.all (fun t => t.title.isSome) = true)
    (hPrios : ts.all (fun t => validPriority (t.priority.getD "medium")) = true) :
    handleImportRequest db (pre ++ [⟨.assistant, .jsonObj (some ts)⟩]) q =
      ({ db with
          tasks := db.tasks ++ mkImportTasks db.nextTaskId none ts,
          nextTaskId := db.nextTaskId + ts.length },
       pre ++ [⟨.assistant, .jsonObj (some ts)⟩],
       ⟨true, importSuccessMessage ts.length none,
        some (.importedTasks (mkImportTasks db.nextTaskId none ts) none)⟩) := by
  have hpn : extractImportProjectName q = none := by
    simp [extractImportProjectName, hNoProj]
  have hLast := getLastOpt_append_singleton pre
    (⟨Role.assistant, .jsonObj (some ts)⟩ : Msg)
  simp [handleImportRequest, importBranch, hLast, hpn, import_tasks,
    Session.fresh, Session.commitTxn, hTitles, mkImportTasks_all_ok, hPrios]

/-- **C8** (confirmed): a successful import leaves the pending-import buffer
(the conversation history) unchanged — `import_tasks` never writes to it;
only `clear_conversation` empties it — so issuing the same import command
twice in a row persists the generated batch twice: the store ends with
`2·N` more tasks, while the project table is untouched (no `to project`
suffix). -/
theorem c8_import_twice_persists_twice
    (db : Store) (pre : List Msg) (ts : List GenTaskJson) (q : String)
    (hNoProj : pyContains q "to project" = false)
    (hTitles : ts.all (fun t => t.title.isSome) = true)
    (hPrios : ts.all (fun t => validPriority (t.priority.getD "medium")) = true) :
    ∃ (db₁ db₂ : Store) (r₁ r₂ : Response),
      handleImportRequest db (pre ++ [⟨.assistant, .jsonObj (some ts)⟩]) q =
        (db₁, pre ++ [⟨.assistant, .jsonObj (some ts)⟩], r₁) ∧
      handleImportRequest db₁ (pre ++ [⟨.assistant, .jsonObj (some ts)⟩]) q =
        (db₂, pre ++ [⟨.assistant, .jsonObj (some ts)⟩], r₂) ∧
      r₁.success = true ∧ r₂.success = true ∧
      db₁.tasks.length = db.tasks.length + ts.length ∧
      db₂.tasks.length = db.tasks.length + 2 * ts.length ∧
      db₁.projects = db.projects ∧ db₂.projects = db.projects ∧
      clear_conversation (pre ++ [⟨.assistant, .jsonObj (some ts)⟩]) = [] := by
  refine ⟨_, _, _, _,
    handleImportRequest_assistant_json db pre ts q hNoProj hTitles hPrios,
    handleImportRequest_assistant_json _ pre ts q hNoProj hTitles hPrios,
    ?_, ?_, ?_, ?_, ?_, ?_, rfl⟩
  · rfl
  · rfl
  · simp [mkImportTasks_length]
  · simp [mkImportTasks_length]
    omega
  · rfl
  · rfl

/-- **C8** witness: a one-task batch imported twice yields two stored
tasks. -/
theorem c8_import_twice_persists_twice_witness :
    pyContains "add these tasks" "to project" = false ∧
    (∃ (db₁ db₂ : Store) (r₁ r₂ : Response),
      handleImportRequest ({} : Store)
          ([⟨.user, .text "how to x"⟩] ++
            [⟨.assistant, .jsonObj (some [⟨some "a", some "b", some "high"⟩])⟩])
          "add these tasks" =
        (db₁,
         [⟨.user, .text "how to x"⟩] ++
           [⟨.assistant, .jsonObj (some [⟨some "a", some "b", some "high"⟩])⟩],
         r₁) ∧
      handleImportRequest db₁
          ([⟨.user, .text "how to x"⟩] ++
            [⟨.assistant, .jsonObj (some [⟨some "a", some "b", some "high"⟩])⟩])
          "add these tasks" =
        (db₂,
         [⟨.user, .text "how to x"⟩] ++
           [⟨.assistant, .jsonObj (some [⟨some "a", some "b", some "high"⟩])⟩],
         r₂) ∧
      r₁.success = true ∧ r₂.success = true ∧
      db₁.tasks.length = ({} : Store).tasks.length + 1 ∧
      db₂.tasks.length = ({} : Store).tasks.length + 2 * 1 ∧
      db₁.projects = ({} : Store).projects ∧
      db₂.projects = ({} : Store).projects ∧
      clear_conversation
          ([⟨.user, .text "how to x"⟩] ++
            [⟨.assistant, .jsonObj (some [⟨some "a", some "b", some "high"⟩])⟩]) =
        []) :=
  ⟨by decide,
   c8_import_twice_persists_twice ({} : Store) [⟨.user, .text "how to x"⟩]
     [⟨some "a", some "b", some "high"⟩] "add these tasks"
     (by decide) (by decide) (by decide)⟩

/-! ## C9 — out-of-set priority during generation -/

/-- **C9** counterexample.  The claim states the priority is coerced to
`"medium"` BEFORE the batch is stored in the pending-import buffer.  It is
not: `generate_tasks` coerces the parsed in-memory `tasks_data` (what the
result's `data` shows) but appends the verbatim `response_content` string
to the conversation history, so the buffer entry still says `"urgent"`. -/
theorem c9_counterexample_buffer_not_coerced :
    (generate_tasks [] "how to plan a trip"
        (.jsonObj (some [⟨some "t", some "d", some "urgent"⟩]))).1 =
      [⟨.user, .text "how to plan a trip"⟩,
       ⟨.assistant, .jsonObj (some [⟨some "t", some "d", some "urgent"⟩])⟩] ∧
    validPriority "urgent" = false ∧
    (generate_tasks [] "how to plan a trip"
        (.jsonObj (some [⟨some "t", some "d", some "urgent"⟩]))).2.data =
      some (.genTasks [⟨some "t", some "d", some "medium"⟩]) :=
  ⟨by decide, by decide, by decide⟩

/-- Coercion always lands in the allowed priority set. -/
theorem coerceTask_valid (t : GenTaskJson) :
    validPriority ((coerceTask t).priority.getD "") = true := by
  unfold coerceTask
  by_cases hv : validPriority (t.priority.getD "") = true
  · simp [hv]
  · have hm : validPriority "medium" = true := by decide
    simp [hv, hm]

/-- **C9** (amended): on a structurally valid LLM batch, generation succeeds
and the RETURNED data has every priority coerced into {low, medium, high} —
but the pending-import buffer receives the verbatim, uncoerced batch; a
subsequent import of a buffer containing an out-of-set priority fails at
the row constraints and rolls back, persisting nothing — so no task with an
out-of-set priority is ever persisted, because the import fails outright
rather than importing with `"medium"`. -/
theorem c9_priority_coercion_amended
    (hist : List Msg) (query : String) (ts : List GenTaskJson)
    (hFields : ts.all hasRequiredFields = true) :
    generate_tasks hist query (.jsonObj (some ts)) =
      (hist ++ [⟨.user, .text query⟩, ⟨.assistant, .jsonObj (some ts)⟩],
       ⟨true,
        "Generated " ++ toString ts.length ++
          " tasks successfully. You can now add these tasks to your project.",
        some (.genTasks (ts.map coerceTask))⟩) ∧
    (∀ t ∈ ts.map coerceTask, validPriority (t.priority.getD "") = true) ∧
    (∀ sess : Session,
      ts.all (fun t => t.title.isSome) = true →
      ts.all (fun t => validPriority (t.priority.getD "medium")) = false →
      import_tasks (some ts) none sess = (sess.rollbackTxn, importFailureResp)) := by
  refine ⟨?_, ?_, ?_⟩
  · simp [generate_tasks, hFields]
  · intro t' ht'
    obtain ⟨t, _, rfl⟩ := List.mem_map.mp ht'
    exact coerceTask_valid t
  · intro sess hTitles hBad
    simp [import_tasks, hTitles, mkImportTasks_all_ok, hBad]

/-- **C9** witness: the single-task batch with priority `"urgent"` —
generation succeeds showing `"medium"`, the buffer keeps `"urgent"`, and
importing that buffer fails and rolls back. -/
theorem c9_priority_coercion_amended_witness :
    ([(⟨some "t", some "d", some "urgent"⟩ : GenTaskJson)]).all
        hasRequiredFields = true ∧
    (generate_tasks [] "how to plan a trip"
        (.jsonObj (some [⟨some "t", some "d", some "urgent"⟩])) =
      ([] ++ [⟨.user, .text "how to plan a trip"⟩,
              ⟨.assistant,
               .jsonObj (some [⟨some "t", some "d", some "urgent"⟩])⟩],
       ⟨true,
        "Generated " ++ toString
            ([(⟨some "t", some "d", some "urgent"⟩ : GenTaskJson)]).length ++
          " tasks successfully. You can now add these tasks to your project.",
        some (.genTasks
          ([(⟨some "t", some "d", some "urgent"⟩ : GenTaskJson)].map
            coerceTask))⟩) ∧
     (∀ t ∈ [(⟨some "t", some "d", some "urgent"⟩ : GenTaskJson)].map
          coerceTask, validPriority (t.priority.getD "") = true) ∧
     (∀ sess : Session,
       ([(⟨some "t", some "d", some "urgent"⟩ : GenTaskJson)]).all
           (fun t => t.title.isSome) = true →
       ([(⟨some "t", some "d", some "urgent"⟩ : GenTaskJson)]).all
           (fun t => validPriority (t.priority.getD "medium")) = false →
       import_tasks (some [⟨some "t", some "d", some "urgent"⟩]) none sess =
         (sess.rollbackTxn, importFailureResp))) :=
  ⟨by decide,
   c9_priority_coercion_amended [] "how to plan a trip"
     [⟨some "t", some "d", some "urgent"⟩] (by decide)⟩

/-! ## C10 — creator defaults to user id 1 -/

/-- Any successful `create_task` yields a task whose creator is the
parameter's `created_by` when given and `1` otherwise. -/
theorem create_task_created_by
    (s : Store) (p : CreateTaskParams) (t : TaskRec) (pn : Option String)
    (hok : (create_task s p).2 = .ok (t, pn)) :
    t.created_by = p.created_by.getD 1 := by
  simp only [create_task] at hok
  split at hok
  · simp at hok
  · split at hok
    · simp at hok
    · split at hok
      · split at hok
        · split at hok
          · simp at hok
            rw [← hok.1]
          · split at hok
            · simp at hok
            · simp at hok
              rw [← hok.1]
        · simp at hok
          rw [← hok.1]
      · simp at hok

/-- **C10** (confirmed): a `create_task` call whose parameters omit
`created_by` (and every task row the import step stages) carries creator
user id 1; and the insert succeeds even with no user in the store — the
runtime engine never enables SQLite foreign-key enforcement, so the
required `created_by` column only needs to be non-null. -/
theorem c10_default_creator_is_user_one :
    (∀ (s : Store) (p : CreateTaskParams) (t : TaskRec) (pn : Option String),
        p.created_by = none → (create_task s p).2 = .ok (t, pn) →
        t.created_by = 1) ∧
    (∀ (nextId : Nat) (pid : Option Nat) (ts : List GenTaskJson),
        ∀ t ∈ mkImportTasks nextId pid ts, t.created_by = 1) ∧
    (create_task ({ users := [] } : Store) { title := some "t" }).2 =
      .ok (⟨1, "t", none, "pending", "medium", none, none, none, 1⟩, none) := by
  refine ⟨?_, ?_, by decide⟩
  · intro s p t pn hcb hok
    rw [create_task_created_by s p t pn hok, hcb]
    rfl
  · intro nextId pid ts
    induction ts generalizing nextId with
    | nil => intro t ht; simp [mkImportTasks] at ht
    | cons a as ih =>
      intro t ht
      rw [mkImportTasks] at ht
      rcases List.mem_cons.mp ht with h | h
      · rw [h]; rfl
      · exact ih (nextId + 1) t h

/-- **C10** witness: creating a task with no `created_by` against a store
with NO users succeeds and the stored creator is 1. -/
theorem c10_default_creator_is_user_one_witness :
    ({ title := some "t" } : CreateTaskParams).created_by = none ∧
    (create_task ({ users := [] } : Store) { title := some "t" }).2 =
      .ok (⟨1, "t", none, "pending", "medium", none, none, none, 1⟩, none) ∧
    (⟨1, "t", none, "pending", "medium", none, none, none, 1⟩ :
        TaskRec).created_by = 1 :=
  ⟨rfl, by decide,
   c10_default_creator_is_user_one.1 ({ users := [] } : Store)
     { title := some "t" }
     ⟨1, "t", none, "pending", "medium", none, none, none, 1⟩ none
     rfl (by decide)⟩

end NlpTasks
